import Mathlib

/-!
Shallow embedding of the response-interception and panic-recovery pipeline of
the `problemdetails` middleware package (src/problemdetails/middleware.go).

The real response channel (Go's `http.ResponseWriter`) is modelled as a header
list together with a trace of observable events: header commits, body writes,
delegations to the Writer collaborator (`Write(w, r, status, detail, code)`),
and invocations of `logCallback`.  The model channel's write primitive always
succeeds and reports the full length written.
-/

namespace ProblemDetails

/-- An observable event on the real response channel. -/
inductive Ev : Type
  | writeHeader (status : Int)
  | write (body : List Nat)
  | writerCall (status : Int) (detail : String) (code : String)
  | logCall (status : Int)
deriving DecidableEq, Repr

/-- The real response channel: its current headers and the trace of events
forwarded to it. Headers are an association list; `hGet` and `hDel` mirror
Go's `Header.Get` / `Header.Del` for the canonical keys used by the code. -/
structure Channel : Type where
  headers : List (String × String)
  events : List Ev
deriving DecidableEq, Repr

/-- `Header.Get`: first value recorded for the key, or `""` when absent. -/
def hGet (hs : List (String × String)) (key : String) : String :=
  match hs.find? (fun p => p.1 = key) with
  | some p => p.2
  | none => ""

/-- `Header.Del`: remove every entry for the key. -/
def hDel (hs : List (String × String)) (key : String) : List (String × String) :=
  hs.filter (fun p => p.1 ≠ key)

/-- Forward a header commit (`WriteHeader`) to the real channel. -/
def chWriteHeader (ch : Channel) (status : Int) : Channel :=
  { ch with events := ch.events ++ [Ev.writeHeader status] }

/-- Forward a body write to the real channel; it succeeds with the full
length, as `httptest`-style recorders do. -/
def chWrite (ch : Channel) (body : List Nat) : Channel × Nat :=
  ({ ch with events := ch.events ++ [Ev.write body] }, body.length)

/-- The response interceptor's own state (`responseInterceptor`):
`status` is `capturedStatus` (0 = `WriteHeader` not observed yet) and
`bodyWritten` is the commitment flag. -/
structure Interceptor : Type where
  status : Int
  bodyWritten : Bool
deriving DecidableEq, Repr

/-- Interceptor state as reset on acquisition from the pool
(`ri.status = 0; ri.bodyWritten = false`). -/
def riInit : Interceptor := { status := 0, bodyWritten := false }

/-- `responseInterceptor.WriteHeader`: records the status locally and forwards
nothing to the real channel. -/
def riWriteHeader (ri : Interceptor) (ch : Channel) (status : Int) :
    Interceptor × Channel :=
  ({ ri with status := status }, ch)

/-- `responseInterceptor.Write`: mirrors the Go method line by line.
Returns the new interceptor state, the new channel state and the byte count
reported to the caller (the swallow branch reports `0, nil`). -/
def riWrite (ri : Interceptor) (ch : Channel) (body : List Nat) :
    Interceptor × Channel × Nat :=
  if 400 ≤ ri.status ∧ body.length = 0 then
    (ri, ch, 0)
  else
    let ri1 :=
      if ri.bodyWritten = false then
        { ri with status := if ri.status = 0 then 200 else ri.status }
      else ri
    let ch1 :=
      if ri.bodyWritten = false then chWriteHeader ch ri1.status else ch
    let ri2 := { ri1 with bodyWritten := true }
    let w := chWrite ch1 body
    (ri2, w.1, w.2)

/-- The conversion condition tested by `ProblemDetailsConverter` after the
handler returns. -/
def convCond (ri : Interceptor) (ch : Channel) : Prop :=
  400 ≤ ri.status ∧ ri.bodyWritten = false ∧
    (hGet ch.headers "Content-Type").startsWith "application/problem+json" = false

instance (ri : Interceptor) (ch : Channel) : Decidable (convCond ri ch) := by
  unfold convCond; infer_instance

/-- The post-handler phase of `ProblemDetailsConverter`: strip the stale
headers and delegate to the Writer plus `logCallback` when the conversion
condition holds, otherwise perform the status fixup when only `WriteHeader`
was called. -/
def converterPost (ri : Interceptor) (ch : Channel) : Channel :=
  if convCond ri ch then
    { headers :=
        hDel (hDel (hDel ch.headers "Content-Encoding") "Vary") "Content-Length",
      events :=
        ch.events ++ [Ev.writerCall ri.status "" "", Ev.logCall ri.status] }
  else if ri.bodyWritten = false ∧ ri.status ≠ 0 then
    { ch with events := ch.events ++ [Ev.writeHeader ri.status] }
  else ch

/-- Handler-visible operations on the interceptor, for stating invariants over
arbitrary call sequences. -/
inductive Op : Type
  | setStatus (code : Int)
  | write (body : List Nat)
deriving DecidableEq, Repr

/-- One interceptor operation acting on the interceptor/channel pair. -/
def stepIC (s : Interceptor × Channel) (op : Op) : Interceptor × Channel :=
  match op with
  | Op.setStatus c => riWriteHeader s.1 s.2 c
  | Op.write b => let w := riWrite s.1 s.2 b; (w.1, w.2.1)

/-- Run a sequence of interceptor operations. -/
def runOps (s : Interceptor × Channel) (ops : List Op) : Interceptor × Channel :=
  ops.foldl stepIC s

/-- The spec's interceptor invariant: committed implies a nonzero captured
status. -/
def riInv (ri : Interceptor) : Prop :=
  ri.bodyWritten = true → ri.status ≠ 0

instance (ri : Interceptor) : Decidable (riInv ri) := by
  unfold riInv; infer_instance

/-- An empty real channel. -/
def chEmpty : Channel := { headers := [], events := [] }

/-!  Panic recoverer.  A recovered panic value is either the abort sentinel
`http.ErrAbortHandler` or a generic value, carried with its `fmt`-rendering
(`%v`).  The call stack at the recovery point is a list of `(file, line)`
frames: `runtime.Callers(skip, pc)` with a one-element `pc` returns 1 exactly
when frame `skip` exists, and `CallersFrames(pc).Next()` resolves it. -/

/-- A recovered panic value. -/
inductive PanicVal : Type
  | abort
  | generic (msg : String)
deriving DecidableEq, Repr

/-- The `fmt` rendering (`%v`) of a panic value. -/
def fmtV : PanicVal → String
  | PanicVal.abort => "net/http: abort Handler"
  | PanicVal.generic msg => msg

/-- Outcome of the recoverer's deferred function for one handler invocation. -/
inductive ROutcome : Type
  | normal
  | repropagate (v : PanicVal)
  | silent
  | converted (status : Int) (detail : String) (code : String)
deriving DecidableEq, Repr

/-- The diagnostic detail string built by `Recoverer`: first the optional
located form (set only when `stackFrameIdx >= 0` and `runtime.Callers`
returns 1 for skip `stackFrameIdx + 3`), then the plain form as the fallback
when `detail` is still empty. -/
def mkDetail (stackFrameIdx : Int) (frames : List (String × Int))
    (v : PanicVal) : String :=
  let detail :=
    if 0 ≤ stackFrameIdx then
      match (frames.drop (stackFrameIdx + 3).toNat).head? with
      | some f =>
          "panic: '" ++ fmtV v ++ "' at " ++ f.1 ++ ":" ++ toString f.2
      | none => ""
    else ""
  if detail = "" then "panic: '" ++ fmtV v ++ "'" else detail

/-- The recoverer's deferred classification: `rec = none` models
`recover() == nil` (no panic).  `connHeader` is the request's `Connection`
header value. -/
def recovererPost (stackFrameIdx : Int) (frames : List (String × Int))
    (connHeader : String) (rec : Option PanicVal) : ROutcome :=
  match rec with
  | none => ROutcome.normal
  | some v =>
      if v = PanicVal.abort then ROutcome.repropagate v
      else if connHeader = "Upgrade" then ROutcome.silent
      else ROutcome.converted 500 (mkDetail stackFrameIdx frames v) ""

/-- `true` exactly on `logCall` events. -/
def isLogCall : Ev → Bool
  | Ev.logCall _ => true
  | _ => false

/-- `true` exactly on `writerCall` events. -/
def isWriterCall : Ev → Bool
  | Ev.writerCall _ _ _ => true
  | _ => false

/-- C2: a `write` of empty bytes while `capturedStatus ≥ 400` and uncommitted
returns success with zero bytes, leaves the interceptor state unchanged and
forwards nothing to the real channel. -/
theorem interceptor_write_swallow (ri : Interceptor) (ch : Channel)
    (hst : 400 ≤ ri.status) (hbw : ri.bodyWritten = false) :
    riWrite ri ch [] = (ri, ch, 0) := by
  simp [riWrite, hst]

theorem interceptor_write_swallow_w :
    riWrite { status := 404, bodyWritten := false } chEmpty [] =
      ({ status := 404, bodyWritten := false }, chEmpty, 0) :=
  interceptor_write_swallow { status := 404, bodyWritten := false } chEmpty
    (by decide) rfl

/-- C3 counterexample: with `committed = true`, `capturedStatus = 404` and
empty bytes, `write` swallows (returns `(0, nil)` and forwards nothing to the
real channel's write operation) instead of forwarding, because the swallow
check does not test the committed flag. -/
theorem interceptor_write_committed_cex :
    riWrite { status := 404, bodyWritten := true } chEmpty [] =
      ({ status := 404, bodyWritten := true }, chEmpty, 0) ∧
    (riWrite { status := 404, bodyWritten := true } chEmpty []).2.1.events ≠
      chEmpty.events ++ [Ev.write []] := by
  constructor
  · rfl
  · decide

/-- C3 amended: a `write` while committed forwards the bytes directly with no
state change, except when the bytes are empty and `capturedStatus ≥ 400`, in
which case it returns success with zero bytes and forwards nothing. -/
theorem interceptor_write_committed (ri : Interceptor) (ch : Channel)
    (body : List Nat) (hbw : ri.bodyWritten = true) :
    (¬ (400 ≤ ri.status ∧ body = []) →
      riWrite ri ch body =
        (ri, { ch with events := ch.events ++ [Ev.write body] }, body.length)) ∧
    ((400 ≤ ri.status ∧ body = []) → riWrite ri ch body = (ri, ch, 0)) := by
  obtain ⟨st, bw⟩ := ri
  simp only at hbw
  subst hbw
  constructor
  · intro hns
    rw [riWrite, if_neg (by simpa using hns)]
    simp [chWrite]
  · rintro ⟨hst, hb⟩
    subst hb
    simp [riWrite, hst]

theorem interceptor_write_committed_w :
    riWrite { status := 200, bodyWritten := true } chEmpty [7] =
      ({ status := 200, bodyWritten := true },
       { chEmpty with events := chEmpty.events ++ [Ev.write [7]] }, 1) :=
  (interceptor_write_committed { status := 200, bodyWritten := true } chEmpty
    [7] rfl).1 (by decide)

/-- C5: a `write` while uncommitted that is not swallowed defaults a zero
`capturedStatus` to 200, forwards the (possibly defaulted) status as a header
commit, marks the interceptor committed, then forwards the bytes. -/
theorem interceptor_write_commit (ri : Interceptor) (ch : Channel)
    (body : List Nat) (hbw : ri.bodyWritten = false)
    (hns : ¬ (400 ≤ ri.status ∧ body = [])) :
    riWrite ri ch body =
      ({ status := if ri.status = 0 then 200 else ri.status,
         bodyWritten := true },
       { ch with events := ch.events ++
           [Ev.writeHeader (if ri.status = 0 then 200 else ri.status),
            Ev.write body] },
       body.length) := by
  obtain ⟨st, bw⟩ := ri
  simp only at hbw
  subst hbw
  rw [riWrite, if_neg (by simpa using hns)]
  simp [chWriteHeader, chWrite]

theorem interceptor_write_commit_w :
    riWrite { status := 0, bodyWritten := false } chEmpty [7] =
      ({ status := 200, bodyWritten := true },
       { chEmpty with events := chEmpty.events ++
           [Ev.writeHeader 200, Ev.write [7]] }, 1) :=
  interceptor_write_commit { status := 0, bodyWritten := false } chEmpty [7]
    rfl (by decide)

/-- C10: `setStatus` called after commitment still overwrites the recorded
status, leaves the committed flag set, and forwards nothing to the real
channel. -/
theorem setstatus_after_commit (ri : Interceptor) (ch : Channel) (c : Int)
    (hbw : ri.bodyWritten = true) :
    (riWriteHeader ri ch c).1.status = c ∧
    (riWriteHeader ri ch c).1.bodyWritten = true ∧
    (riWriteHeader ri ch c).2 = ch :=
  ⟨rfl, hbw, rfl⟩

theorem setstatus_after_commit_w :
    (riWriteHeader { status := 200, bodyWritten := true } chEmpty 404).1.status
        = 404 ∧
    (riWriteHeader { status := 200, bodyWritten := true } chEmpty
        404).1.bodyWritten = true ∧
    (riWriteHeader { status := 200, bodyWritten := true } chEmpty 404).2
        = chEmpty :=
  setstatus_after_commit { status := 200, bodyWritten := true } chEmpty 404 rfl

/-- C4 counterexample: after a committing write followed by `setStatus 0`,
the interceptor is committed with `capturedStatus = 0`, so the invariant
`committed → capturedStatus ≠ 0` is not preserved by every operation. -/
theorem interceptor_inv_cex :
    (runOps (riInit, chEmpty) [Op.write [7], Op.setStatus 0]).1 =
      { status := 0, bodyWritten := true } ∧
    ¬ riInv (runOps (riInit, chEmpty) [Op.write [7], Op.setStatus 0]).1 := by
  constructor
  · rfl
  · decide

/-- C4 amended: the invariant `committed → capturedStatus ≠ 0` holds after
acquisition-time reset and is preserved by every interceptor operation except
`setStatus 0` issued while already committed. -/
theorem interceptor_inv_preserved :
    riInv riInit ∧
    ∀ (ri : Interceptor) (ch : Channel) (op : Op), riInv ri →
      (∀ c, op = Op.setStatus c → c ≠ 0 ∨ ri.bodyWritten = false) →
      riInv (stepIC (ri, ch) op).1 := by
  constructor
  · decide
  · intro ri ch op hinv hop
    obtain ⟨st, bw⟩ := ri
    cases op with
    | setStatus c =>
        rcases hop c rfl with hc | hbw
        · intro _
          simpa [stepIC, riWriteHeader] using hc
        · simp only at hbw
          subst hbw
          intro h
          simp [stepIC, riWriteHeader] at h
    | write b =>
        by_cases hsw : 400 ≤ st ∧ b.length = 0
        · simpa [stepIC, riWrite, hsw] using hinv
        · cases bw with
          | false =>
              intro _
              have hs : (stepIC ({ status := st, bodyWritten := false }, ch)
                  (Op.write b)).1.status =
                    if st = 0 then 200 else st := by
                simp only [stepIC]
                rw [riWrite, if_neg hsw]
                simp
              rw [hs]
              split <;> omega
          | true =>
              intro _
              have hs : (stepIC ({ status := st, bodyWritten := true }, ch)
                  (Op.write b)).1.status = st := by
                simp only [stepIC]
                rw [riWrite, if_neg hsw]
                simp
              rw [hs]
              exact hinv rfl

theorem interceptor_inv_preserved_w :
    riInv riInit ∧
    riInv (stepIC ({ status := 0, bodyWritten := false }, chEmpty)
      (Op.write [7])).1 :=
  ⟨interceptor_inv_preserved.1,
   interceptor_inv_preserved.2 { status := 0, bodyWritten := false } chEmpty
     (Op.write [7]) (by decide) (by intro c hc; cases hc)⟩

/-- C1: when `capturedStatus ≥ 400`, the interceptor is uncommitted, and the
real channel's Content-Type does not start with "application/problem+json",
the converter strips Content-Encoding, Vary and Content-Length, delegates to
the Writer with the captured status and empty detail/code, and invokes
`logCallback` exactly once; in every other post-handler state the headers are
untouched and no Writer delegation or `logCallback` invocation happens. -/
theorem converter_conversion (ri : Interceptor) (ch : Channel) :
    (convCond ri ch →
      converterPost ri ch =
        { headers := hDel (hDel (hDel ch.headers "Content-Encoding") "Vary")
            "Content-Length",
          events := ch.events ++
            [Ev.writerCall ri.status "" "", Ev.logCall ri.status] } ∧
      (converterPost ri ch).events.countP (fun e => isLogCall e) =
        ch.events.countP (fun e => isLogCall e) + 1 ∧
      (converterPost ri ch).events.countP (fun e => isWriterCall e) =
        ch.events.countP (fun e => isWriterCall e) + 1) ∧
    (¬ convCond ri ch →
      (converterPost ri ch).headers = ch.headers ∧
      (converterPost ri ch).events.countP (fun e => isLogCall e) =
        ch.events.countP (fun e => isLogCall e) ∧
      (converterPost ri ch).events.countP (fun e => isWriterCall e) =
        ch.events.countP (fun e => isWriterCall e)) := by
  constructor
  · intro h
    refine ⟨by simp [converterPost, h], ?_, ?_⟩ <;>
      simp [converterPost, h, List.countP_append, isLogCall, isWriterCall]
  · intro h
    by_cases hfix : ri.bodyWritten = false ∧ ri.status ≠ 0
    · refine ⟨by simp [converterPost, h, hfix], ?_, ?_⟩ <;>
        simp [converterPost, h, hfix, List.countP_append, isLogCall,
          isWriterCall]
    · simp [converterPost, h, hfix]

set_option maxRecDepth 8000 in
theorem converter_conversion_w :
    convCond { status := 404, bodyWritten := false }
      { headers := [("Content-Type", "text/plain")], events := [] } ∧
    converterPost { status := 404, bodyWritten := false }
        { headers := [("Content-Type", "text/plain")], events := [] } =
      { headers := [("Content-Type", "text/plain")],
        events := [Ev.writerCall 404 "" "", Ev.logCall 404] } :=
  ⟨by decide,
   ((converter_conversion { status := 404, bodyWritten := false }
       { headers := [("Content-Type", "text/plain")], events := [] }).1
     (by decide)).1⟩

/-- C9: when the conversion condition did not fire, the interceptor is
uncommitted and `capturedStatus ≠ 0`, the converter forwards exactly one
header commit carrying the captured status and writes no body; when
`capturedStatus = 0` or the interceptor is committed, no fixup commit is
forwarded at all. -/
theorem converter_fixup (ri : Interceptor) (ch : Channel) :
    (¬ convCond ri ch → ri.bodyWritten = false → ri.status ≠ 0 →
      converterPost ri ch =
        { ch with events := ch.events ++ [Ev.writeHeader ri.status] }) ∧
    ((ri.status = 0 ∨ ri.bodyWritten = true) → converterPost ri ch = ch) := by
  constructor
  · intro h hbw hst
    simp [converterPost, h, hbw, hst]
  · rintro (hst | hbw)
    · have h : ¬ convCond ri ch := by
        rintro ⟨h400, -⟩
        rw [hst] at h400
        exact absurd h400 (by decide)
      simp [converterPost, h, hst]
    · have h : ¬ convCond ri ch := by
        rintro ⟨-, hbw2, -⟩
        rw [hbw] at hbw2
        cases hbw2
      simp [converterPost, h, hbw]

theorem converter_fixup_w :
    converterPost { status := 204, bodyWritten := false } chEmpty =
      { chEmpty with events := chEmpty.events ++ [Ev.writeHeader 204] } :=
  (converter_fixup { status := 204, bodyWritten := false } chEmpty).1
    (by decide) rfl (by decide)

/-- The located diagnostic string is never empty, so the fallback branch of
`mkDetail` is not taken once a frame resolved. -/
theorem located_detail_ne (s t l : String) :
    "panic: '" ++ s ++ "' at " ++ t ++ ":" ++ l ≠ "" := by
  intro he
  have hlen : ("panic: '" ++ s ++ "' at " ++ t ++ ":" ++ l).length = 0 := by
    rw [he]; rfl
  simp only [String.length_append] at hlen
  have h8 : "panic: '".length = 8 := rfl
  omega

/-- C6: recovering the abort sentinel re-raises exactly that value (so nothing
is delegated to the Writer and nothing is written), and repropagation happens
for no other recovered value. -/
theorem recoverer_abort_repropagate (idx : Int) (frames : List (String × Int))
    (conn : String) :
    recovererPost idx frames conn (some PanicVal.abort) =
      ROutcome.repropagate PanicVal.abort ∧
    ∀ (r : Option PanicVal) (v : PanicVal),
      recovererPost idx frames conn r = ROutcome.repropagate v →
      r = some PanicVal.abort ∧ v = PanicVal.abort := by
  refine ⟨by simp [recovererPost], ?_⟩
  intro r v h
  match r with
  | none => simp [recovererPost] at h
  | some PanicVal.abort =>
      have heq : recovererPost idx frames conn (some PanicVal.abort) =
          ROutcome.repropagate PanicVal.abort := by simp [recovererPost]
      rw [heq] at h
      cases h
      exact ⟨rfl, rfl⟩
  | some (PanicVal.generic m) =>
      by_cases hc : conn = "Upgrade" <;> simp [recovererPost, hc] at h

theorem recoverer_abort_repropagate_w :
    recovererPost 0 [] "" (some PanicVal.abort) =
      ROutcome.repropagate PanicVal.abort ∧
    (some PanicVal.abort = some (PanicVal.abort) ∧
      PanicVal.abort = PanicVal.abort) :=
  ⟨(recoverer_abort_repropagate 0 [] "").1,
   (recoverer_abort_repropagate 0 [] "").2 (some PanicVal.abort)
     PanicVal.abort (recoverer_abort_repropagate 0 [] "").1⟩

/-- C7: a recovered generic panic (not the abort sentinel, no Upgrade header)
is converted with status 500 and empty error code; the detail is the located
form when `stackFrameIdx ≥ 0` and the frame at offset `stackFrameIdx + 3`
resolves, and exactly the plain form when `stackFrameIdx < 0` or resolution
fails. -/
theorem recoverer_generic_detail (idx : Int) (frames : List (String × Int))
    (conn : String) (v : PanicVal) (hv : v ≠ PanicVal.abort)
    (hc : conn ≠ "Upgrade") :
    recovererPost idx frames conn (some v) =
      ROutcome.converted 500 (mkDetail idx frames v) "" ∧
    (∀ f : String × Int, 0 ≤ idx →
      (frames.drop (idx + 3).toNat).head? = some f →
      mkDetail idx frames v =
        "panic: '" ++ fmtV v ++ "' at " ++ f.1 ++ ":" ++ toString f.2) ∧
    ((idx < 0 ∨ (frames.drop (idx + 3).toNat).head? = none) →
      mkDetail idx frames v = "panic: '" ++ fmtV v ++ "'") := by
  refine ⟨by simp [recovererPost, hv, hc], ?_, ?_⟩
  · intro f h0 hf
    simp only [mkDetail, h0, if_true, if_pos, hf]
    rw [if_neg (located_detail_ne (fmtV v) f.1 (toString f.2))]
  · rintro (hneg | hnone)
    · have h0 : ¬ (0 ≤ idx) := by omega
      simp [mkDetail, h0]
    · by_cases h0 : 0 ≤ idx <;> simp [mkDetail, h0, hnone]

theorem recoverer_generic_detail_w :
    recovererPost 0 [("a", 1), ("b", 2), ("c", 3), ("main.go", 42)] ""
        (some (PanicVal.generic "foo")) =
      ROutcome.converted 500
        (mkDetail 0 [("a", 1), ("b", 2), ("c", 3), ("main.go", 42)]
          (PanicVal.generic "foo")) "" ∧
    mkDetail 0 [("a", 1), ("b", 2), ("c", 3), ("main.go", 42)]
        (PanicVal.generic "foo") =
      "panic: '" ++ fmtV (PanicVal.generic "foo") ++ "' at " ++ "main.go" ++
        ":" ++ toString (42 : Int) :=
  ⟨(recoverer_generic_detail 0 [("a", 1), ("b", 2), ("c", 3), ("main.go", 42)]
      "" (PanicVal.generic "foo") (by simp) (by simp)).1,
   (recoverer_generic_detail 0 [("a", 1), ("b", 2), ("c", 3), ("main.go", 42)]
      "" (PanicVal.generic "foo") (by simp) (by simp)).2.1
     ("main.go", 42) (by decide) rfl⟩

/-- C8: when the request's Connection header equals "Upgrade" and the handler
panicked with a non-abort value, the recoverer swallows silently: outcome is
neither a repropagation nor a Writer delegation. -/
theorem recoverer_upgrade_silent (idx : Int) (frames : List (String × Int))
    (v : PanicVal) (hv : v ≠ PanicVal.abort) :
    recovererPost idx frames "Upgrade" (some v) = ROutcome.silent := by
  simp [recovererPost, hv]

theorem recoverer_upgrade_silent_w :
    recovererPost 0 [] "Upgrade" (some (PanicVal.generic "foo")) =
      ROutcome.silent :=
  recoverer_upgrade_silent 0 [] (PanicVal.generic "foo") (by simp)

end ProblemDetails
